import Mathlib

/-!
Shallow embedding of the gesture-to-interaction pipeline of the starfield
repository (src/starfield.js, src/main.js): geometry utilities, finger-state
extraction, gesture classification, openness estimation, temporal smoothing,
the gesture-controller frame step, the starfield highlight controller and the
event emitter.  JavaScript numbers are modelled as rationals; Math.sqrt, an
external primitive, is modelled as an abstract function parameter rt applied
to the squared length, so every statement holds for any square-root oracle.
-/

/-- A 3D point or vector, as the object literals with fields x, y, z. -/
structure Vec3 where
  x : ℚ
  y : ℚ
  z : ℚ
deriving DecidableEq, Repr

/-- A 2D point, as the object literals with fields x, y. -/
structure Vec2 where
  x : ℚ
  y : ℚ
deriving DecidableEq, Repr

/-- lerp from starfield.js: current + (target - current) * smoothing. -/
def lerp (current target smoothing : ℚ) : ℚ :=
  current + (target - current) * smoothing

/-- dot3 from starfield.js. -/
def dot3 (a b : Vec3) : ℚ :=
  a.x * b.x + a.y * b.y + a.z * b.z

/-- subtract3 from starfield.js. -/
def subtract3 (a b : Vec3) : Vec3 :=
  { x := a.x - b.x, y := a.y - b.y, z := a.z - b.z }

/-- distance3 from starfield.js; Math.sqrt is the abstract oracle rt. -/
def distance3 (rt : ℚ → ℚ) (a b : Vec3) : ℚ :=
  let dx := a.x - b.x
  let dy := a.y - b.y
  let dz := a.z - b.z
  rt (dx * dx + dy * dy + dz * dz)

/-- FINGER_TIPS index table. -/
def FINGER_TIPS : Fin 5 → Fin 21 := ![4, 8, 12, 16, 20]

/-- FINGER_PIPS index table. -/
def FINGER_PIPS : Fin 5 → Fin 21 := ![3, 6, 10, 14, 18]

/-- FINGER_MCP index table. -/
def FINGER_MCP : Fin 5 → Fin 21 := ![2, 5, 9, 13, 17]

/-- The dot product computed for finger i inside computeFingerStates:
dot3(tip - pip, mcp - pip). -/
def fingerDot (w : Fin 21 → Vec3) (i : Fin 5) : ℚ :=
  dot3 (subtract3 (w (FINGER_TIPS i)) (w (FINGER_PIPS i)))
    (subtract3 (w (FINGER_MCP i)) (w (FINGER_PIPS i)))

/-- computeFingerStates from starfield.js: for each of the 5 fingers, push
dot < -0.015. -/
def computeFingerStates (w : Fin 21 → Vec3) : List Bool :=
  (List.finRange 5).map (fun i => decide (fingerDot w i < -0.015))

/-- computeOpenness from starfield.js: mean wrist-to-fingertip distance over
the four non-thumb fingertips 8, 12, 16, 20. -/
def computeOpenness (rt : ℚ → ℚ) (w : Fin 21 → Vec3) : ℚ :=
  (distance3 rt (w 0) (w 8) + distance3 rt (w 0) (w 12) +
    distance3 rt (w 0) (w 16) + distance3 rt (w 0) (w 20)) / 4

/-- determineGesture from starfield.js. -/
def determineGesture (fingerStates : List Bool) : String :=
  let extendedCount := (fingerStates.filter (fun b => b)).length
  if 4 ≤ extendedCount then "open"
  else if extendedCount = 0 then "fist"
  else if fingerStates.getD 1 false && !(fingerStates.getD 0 false) &&
      !(fingerStates.getD 2 false) && !(fingerStates.getD 3 false) &&
      !(fingerStates.getD 4 false) then "point"
  else "neutral"

/-- mapOpennessToRadius from main.js, with the CONFIG constants
minOpenness = 0.055, maxOpenness = 0.16, minRadius = 28, maxRadius = 86. -/
def mapOpennessToRadius (openness : ℚ) : ℚ :=
  let minOpenness : ℚ := 0.055
  let maxOpenness : ℚ := 0.16
  let minRadius : ℚ := 28
  let maxRadius : ℚ := 86
  let clamped := min (max openness minOpenness) maxOpenness
  let frac := (clamped - minOpenness) / (maxOpenness - minOpenness)
  minRadius + frac * (maxRadius - minRadius)

/-- C1: for every 5-boolean finger-state vector, determineGesture returns
"open" when at least 4 entries are true, "fist" when none is true, "point"
exactly when only the index finger (position 1) is true, and "neutral" in
every other case. -/
theorem determineGesture_cases (a b c d e : Bool) :
    (4 ≤ ([a, b, c, d, e].filter (fun x => x)).length →
      determineGesture [a, b, c, d, e] = "open") ∧
    (([a, b, c, d, e].filter (fun x => x)).length = 0 →
      determineGesture [a, b, c, d, e] = "fist") ∧
    (a = false ∧ b = true ∧ c = false ∧ d = false ∧ e = false →
      determineGesture [a, b, c, d, e] = "point") ∧
    (([a, b, c, d, e].filter (fun x => x)).length < 4 →
      ([a, b, c, d, e].filter (fun x => x)).length ≠ 0 →
      ¬(a = false ∧ b = true ∧ c = false ∧ d = false ∧ e = false) →
      determineGesture [a, b, c, d, e] = "neutral") := by
  cases a <;> cases b <;> cases c <;> cases d <;> cases e <;> decide

/-- Witness for C1 at the exact point pattern. -/
theorem determineGesture_cases_witness :
    ((false : Bool) = false ∧ (true : Bool) = true ∧ (false : Bool) = false ∧
      (false : Bool) = false ∧ (false : Bool) = false) ∧
    determineGesture [false, true, false, false, false] = "point" :=
  ⟨⟨rfl, rfl, rfl, rfl, rfl⟩,
    (determineGesture_cases false true false false false).2.2.1
      ⟨rfl, rfl, rfl, rfl, rfl⟩⟩

/-- C5: mapOpennessToRadius clamps to 28 below openness 0.055, clamps to 86
above 0.16, interpolates linearly in between, and maps the midpoint openness
0.1075 to the midpoint radius 57. -/
theorem mapOpennessToRadius_spec (o : ℚ) :
    (o ≤ 0.055 → mapOpennessToRadius o = 28) ∧
    (0.16 ≤ o → mapOpennessToRadius o = 86) ∧
    (0.055 ≤ o → o ≤ 0.16 →
      mapOpennessToRadius o = 28 + (o - 0.055) / (0.16 - 0.055) * (86 - 28)) ∧
    mapOpennessToRadius 0.1075 = 57 := by
  refine ⟨?_, ?_, ?_, by norm_num [mapOpennessToRadius]⟩
  · intro h
    have hmax : max o (0.055 : ℚ) = 0.055 := max_eq_right h
    simp only [mapOpennessToRadius, hmax]
    norm_num
  · intro h
    have hmax : max o (0.055 : ℚ) = o := max_eq_left (le_trans (by norm_num) h)
    have hmin : min o (0.16 : ℚ) = 0.16 := min_eq_right h
    simp only [mapOpennessToRadius, hmax, hmin]
    norm_num
  · intro h1 h2
    have hmax : max o (0.055 : ℚ) = o := max_eq_left h1
    have hmin : min o (0.16 : ℚ) = o := min_eq_left h2
    simp only [mapOpennessToRadius, hmax, hmin]

/-- Witness for C5 in the lower clamp region. -/
theorem mapOpennessToRadius_spec_witness :
    (0.04 : ℚ) ≤ 0.055 ∧ mapOpennessToRadius 0.04 = 28 :=
  ⟨by norm_num, (mapOpennessToRadius_spec 0.04).1 (by norm_num)⟩

/-- Multiplying every coordinate of a 3D point by a scalar c. -/
def scaleVec (c : ℚ) (v : Vec3) : Vec3 :=
  { x := c * v.x, y := c * v.y, z := c * v.z }

/-- Multiplying every coordinate of all 21 landmarks by a scalar c. -/
def scaleLandmarks (c : ℚ) (w : Fin 21 → Vec3) : Fin 21 → Vec3 :=
  fun i => scaleVec c (w i)

/-- A landmark array whose thumb dot product is -0.02, just beyond the
-0.015 extension threshold; every other landmark is the origin. -/
def nearThresholdLandmarks : Fin 21 → Vec3 := fun i =>
  if i = 4 then { x := 1/10, y := 0, z := 0 }
  else if i = 2 then { x := -1/5, y := 0, z := 0 }
  else { x := 0, y := 0, z := 0 }

lemma finRange_five : List.finRange 5 = [0, 1, 2, 3, 4] := by decide

lemma computeFingerStates_eval (w : Fin 21 → Vec3) :
    computeFingerStates w =
      [decide (fingerDot w 0 < -0.015), decide (fingerDot w 1 < -0.015),
       decide (fingerDot w 2 < -0.015), decide (fingerDot w 3 < -0.015),
       decide (fingerDot w 4 < -0.015)] := by
  rw [computeFingerStates, finRange_five]
  rfl

lemma fingerDot_near_thumb : fingerDot nearThresholdLandmarks 0 = -(1/50) := by
  show dot3
      (subtract3 { x := 1/10, y := 0, z := 0 } { x := 0, y := 0, z := 0 })
      (subtract3 { x := -1/5, y := 0, z := 0 } { x := 0, y := 0, z := 0 }) =
    -(1/50)
  norm_num [dot3, subtract3]

lemma fingerDot_near_thumb_scaled :
    fingerDot (scaleLandmarks (1/2) nearThresholdLandmarks) 0 = -(1/200) := by
  show dot3
      (subtract3 (scaleVec (1/2) { x := 1/10, y := 0, z := 0 })
        (scaleVec (1/2) { x := 0, y := 0, z := 0 }))
      (subtract3 (scaleVec (1/2) { x := -1/5, y := 0, z := 0 })
        (scaleVec (1/2) { x := 0, y := 0, z := 0 })) = -(1/200)
  norm_num [dot3, subtract3, scaleVec]

lemma fingerDot_near_rest (i : Fin 5) (hi : i ≠ 0) :
    fingerDot nearThresholdLandmarks i = 0 ∧
    fingerDot (scaleLandmarks (1/2) nearThresholdLandmarks) i = 0 := by
  fin_cases i
  · exact absurd rfl hi
  all_goals
    exact ⟨by
      show dot3
          (subtract3 { x := 0, y := 0, z := 0 } { x := 0, y := 0, z := 0 })
          (subtract3 { x := 0, y := 0, z := 0 } { x := 0, y := 0, z := 0 }) = 0
      norm_num [dot3, subtract3],
      by
      show dot3
          (subtract3 (scaleVec (1/2) { x := 0, y := 0, z := 0 })
            (scaleVec (1/2) { x := 0, y := 0, z := 0 }))
          (subtract3 (scaleVec (1/2) { x := 0, y := 0, z := 0 })
            (scaleVec (1/2) { x := 0, y := 0, z := 0 })) = 0
      norm_num [dot3, subtract3, scaleVec]⟩

/-- C3 counterexample: the finger states are NOT invariant under uniform
positive scaling; halving the coordinates of nearThresholdLandmarks moves
the thumb dot product from -0.02 to -0.005, across the -0.015 threshold. -/
theorem computeFingerStates_not_scale_invariant :
    (0 : ℚ) < 1/2 ∧
    computeFingerStates (scaleLandmarks (1/2) nearThresholdLandmarks) ≠
      computeFingerStates nearThresholdLandmarks := by
  have h1 : computeFingerStates nearThresholdLandmarks =
      [true, false, false, false, false] := by
    rw [computeFingerStates_eval, fingerDot_near_thumb,
      (fingerDot_near_rest 1 (by decide)).1, (fingerDot_near_rest 2 (by decide)).1,
      (fingerDot_near_rest 3 (by decide)).1, (fingerDot_near_rest 4 (by decide)).1]
    norm_num
  have h2 : computeFingerStates (scaleLandmarks (1/2) nearThresholdLandmarks) =
      [false, false, false, false, false] := by
    rw [computeFingerStates_eval, fingerDot_near_thumb_scaled,
      (fingerDot_near_rest 1 (by decide)).2, (fingerDot_near_rest 2 (by decide)).2,
      (fingerDot_near_rest 3 (by decide)).2, (fingerDot_near_rest 4 (by decide)).2]
    norm_num
  refine ⟨by norm_num, ?_⟩
  rw [h1, h2]
  simp

/-- C3 amended: each finger's dot product scales by c^2 under uniform scaling
by c, so its sign is invariant for every positive factor; the boolean states,
tested against the nonzero threshold -0.015, agree exactly when no finger's
dot product crosses the threshold under the c^2 rescaling (in general they
can differ, see the counterexample). -/
theorem fingerDot_scaling (w : Fin 21 → Vec3) (c : ℚ) (hc : 0 < c) :
    (∀ i, fingerDot (scaleLandmarks c w) i = c ^ 2 * fingerDot w i) ∧
    (∀ i, fingerDot (scaleLandmarks c w) i < 0 ↔ fingerDot w i < 0) ∧
    ((∀ i, fingerDot w i < -0.015 ↔ c ^ 2 * fingerDot w i < -0.015) →
      computeFingerStates (scaleLandmarks c w) = computeFingerStates w) := by
  have hsq : (0 : ℚ) < c ^ 2 := pow_pos hc 2
  have hscale : ∀ i, fingerDot (scaleLandmarks c w) i = c ^ 2 * fingerDot w i := by
    intro i
    simp only [fingerDot, dot3, subtract3, scaleLandmarks, scaleVec]
    ring
  refine ⟨hscale, ?_, ?_⟩
  · intro i
    rw [hscale i]
    constructor <;> intro h <;> nlinarith [hsq]
  · intro hthr
    simp only [computeFingerStates]
    refine List.map_congr_left ?_
    intro i _
    rw [decide_eq_decide, hscale i]
    exact (hthr i).symm

lemma fingerDot_zero (i : Fin 5) :
    fingerDot (fun _ => { x := 0, y := 0, z := 0 }) i = 0 := by
  show dot3
      (subtract3 { x := 0, y := 0, z := 0 } { x := 0, y := 0, z := 0 })
      (subtract3 { x := 0, y := 0, z := 0 } { x := 0, y := 0, z := 0 }) = 0
  norm_num [dot3, subtract3]

/-- Witness for C3's amended theorem at factor 2 on all-origin landmarks. -/
theorem fingerDot_scaling_witness :
    (0 : ℚ) < 2 ∧
    computeFingerStates
        (scaleLandmarks 2 (fun _ => { x := 0, y := 0, z := 0 })) =
      computeFingerStates (fun _ => { x := 0, y := 0, z := 0 }) := by
  refine ⟨by norm_num,
    (fingerDot_scaling (fun _ => { x := 0, y := 0, z := 0 }) 2 (by norm_num)).2.2 ?_⟩
  intro i
  rw [fingerDot_zero i]
  norm_num

/-- The stored smoothed value after n frames of constant raw input v, starting
from smoothed value s: each frame applies lerp with smoothing factor 0.28, as
GestureController does with its default smoothingFactor. -/
def smoothIter (s v : ℚ) : ℕ → ℚ
  | 0 => s
  | n + 1 => lerp (smoothIter s v n) v 0.28

lemma smoothIter_step (s v : ℚ) (n : ℕ) :
    v - smoothIter s v (n + 1) = (v - smoothIter s v n) * 0.72 := by
  show v - lerp (smoothIter s v n) v 0.28 = _
  rw [lerp]
  ring

lemma smoothIter_closed (s v : ℚ) (n : ℕ) :
    v - smoothIter s v n = 0.72 ^ n * (v - s) := by
  induction n with
  | zero => simp [smoothIter]
  | succ n ih =>
    rw [smoothIter_step, ih, pow_succ]
    ring

/-- C7: holding the raw input constant at v, the smoothed sequence is monotone
toward v, never crosses to the other side of v, and gets within any positive
ε of v after sufficiently many steps. -/
theorem smoothIter_spec (s v : ℚ) :
    (∀ n, s ≤ v →
      smoothIter s v n ≤ smoothIter s v (n + 1) ∧ smoothIter s v n ≤ v) ∧
    (∀ n, v ≤ s →
      smoothIter s v (n + 1) ≤ smoothIter s v n ∧ v ≤ smoothIter s v n) ∧
    (∀ ε : ℚ, 0 < ε → ∃ N, |smoothIter s v N - v| < ε) := by
  refine ⟨?_, ?_, ?_⟩
  · intro n h
    have hc := smoothIter_closed s v n
    have hs := smoothIter_step s v n
    have hp : (0 : ℚ) ≤ 0.72 ^ n := pow_nonneg (by norm_num) n
    have hd : (0 : ℚ) ≤ v - smoothIter s v n := by
      rw [hc]
      exact mul_nonneg hp (sub_nonneg.mpr h)
    constructor <;> linarith
  · intro n h
    have hc := smoothIter_closed s v n
    have hs := smoothIter_step s v n
    have hp : (0 : ℚ) ≤ 0.72 ^ n := pow_nonneg (by norm_num) n
    have hd : v - smoothIter s v n ≤ 0 := by
      rw [hc]
      exact mul_nonpos_of_nonneg_of_nonpos hp (sub_nonpos.mpr h)
    constructor <;> linarith
  · intro ε hε
    rcases eq_or_ne (v - s) 0 with h0 | h0
    · refine ⟨0, ?_⟩
      have : smoothIter s v 0 = v := by
        have := smoothIter_closed s v 0
        simp at this
        linarith
      simpa [this] using hε
    · have hD : 0 < |v - s| := abs_pos.mpr h0
      obtain ⟨N, hN⟩ :=
        exists_pow_lt_of_lt_one (div_pos hε hD) (by norm_num : (0.72 : ℚ) < 1)
      refine ⟨N, ?_⟩
      have habs : |smoothIter s v N - v| = 0.72 ^ N * |v - s| := by
        rw [abs_sub_comm, smoothIter_closed, abs_mul, abs_pow,
          abs_of_nonneg (by norm_num : (0 : ℚ) ≤ 0.72)]
      rw [habs]
      calc 0.72 ^ N * |v - s| < ε / |v - s| * |v - s| := by
            exact mul_lt_mul_of_pos_right hN hD
        _ = ε := div_mul_cancel₀ ε (ne_of_gt hD)

/-- Witness for C7 from 0 toward 1 with ε = 1/2. -/
theorem smoothIter_spec_witness :
    (0 : ℚ) ≤ 1 ∧ (0 : ℚ) < 1/2 ∧
    (smoothIter 0 1 3 ≤ smoothIter 0 1 4 ∧ smoothIter 0 1 3 ≤ 1) ∧
    (∃ N, |smoothIter 0 1 N - 1| < 1/2) :=
  ⟨by norm_num, by norm_num,
    (smoothIter_spec 0 1).1 3 (by norm_num),
    (smoothIter_spec 0 1).2.2 (1/2) (by norm_num)⟩

/-- The payload of an "update" event.  The hand-absent branch of the loop
emits literally gesture "none" and present false with no other fields; the
optional fields model field absence in the JavaScript object. -/
structure UpdateEvent where
  gesture : String
  present : Bool
  openness : Option ℚ
  fingerStates : Option (List Bool)
  position : Option Vec2
  movement : Option Vec2
  pointer : Option Vec2
deriving DecidableEq, Repr

/-- The smoothed signal stored on the controller. -/
structure Smoothed where
  openness : ℚ
  position : Vec2
deriving DecidableEq, Repr

/-- The mutable state of a GestureController relevant to frame analysis. -/
structure GCState where
  ready : Bool
  running : Bool
  smoothingFactor : ℚ
  lastVideoTime : ℚ
  prevHandPosition : Option Vec2
  smoothed : Smoothed
deriving DecidableEq, Repr

/-- The state set up by the GestureController constructor with the default
options: smoothingFactor 0.28, lastVideoTime -1, prevHandPosition null,
smoothed openness 0 and smoothed position x = 0, y = 0. -/
def initGCState : GCState :=
  { ready := false
    running := false
    smoothingFactor := 0.28
    lastVideoTime := -1
    prevHandPosition := none
    smoothed := { openness := 0, position := { x := 0, y := 0 } } }

/-- GestureController.start: a no-op unless ready and not running; otherwise
sets running and resets lastVideoTime. -/
def startGC (s : GCState) : GCState :=
  if s.ready = false ∨ s.running = true then s
  else { s with running := true, lastVideoTime := -1 }

/-- GestureController.stop: clears the running flag. -/
def stopGC (s : GCState) : GCState :=
  { s with running := false }

/-- GestureController._analyzeLandmarks: extracts finger states, gesture and
openness, advances the smoothed signal, derives the movement delta from the
previous smoothed position (zero when there is no baseline), stores the new
baseline and returns the hand-present update payload. -/
def analyzeLandmarks (rt : ℚ → ℚ) (s : GCState)
    (landmarks worldLandmarks : Fin 21 → Vec3) : GCState × UpdateEvent :=
  let fingerStates := computeFingerStates worldLandmarks
  let gesture := determineGesture fingerStates
  let openness := computeOpenness rt worldLandmarks
  let smoothing := s.smoothingFactor
  let newOpenness := lerp s.smoothed.openness openness smoothing
  let wrist := landmarks 0
  let position : Vec2 := { x := 1 - wrist.x, y := wrist.y }
  let newPosition : Vec2 :=
    { x := lerp s.smoothed.position.x position.x smoothing
      y := lerp s.smoothed.position.y position.y smoothing }
  let movement : Vec2 :=
    match s.prevHandPosition with
    | some prev => { x := newPosition.x - prev.x, y := newPosition.y - prev.y }
    | none => { x := 0, y := 0 }
  let indexTip := landmarks 8
  let pointer : Vec2 := { x := indexTip.x, y := indexTip.y }
  ({ s with
      smoothed := { openness := newOpenness, position := newPosition }
      prevHandPosition := some newPosition },
    { gesture := gesture
      present := true
      openness := some newOpenness
      fingerStates := some fingerStates
      position := some newPosition
      movement := some movement
      pointer := some pointer })

/-- One processed video frame as seen by the gesture loop: either no hand was
detected, or one hand with its image-space and world-space landmarks. -/
inductive Frame where
  | noHand
  | hand (landmarks worldLandmarks : Fin 21 → Vec3)

/-- The per-frame branch of GestureController._loop once a new frame is
available: analyze the landmarks when a hand is present, otherwise clear the
previous-position baseline and emit the bare no-hand payload. -/
def processFrame (rt : ℚ → ℚ) (s : GCState) : Frame → GCState × UpdateEvent
  | Frame.noHand =>
    ({ s with prevHandPosition := none },
      { gesture := "none"
        present := false
        openness := none
        fingerStates := none
        position := none
        movement := none
        pointer := none })
  | Frame.hand landmarks worldLandmarks => analyzeLandmarks rt s landmarks worldLandmarks

/-- C4: the previous-position baseline is none at construction, is cleared by
every no-hand frame, and whenever it is none the hand-present frame reports a
movement of exactly x = 0, y = 0. -/
theorem movement_zero_after_hand_loss :
    initGCState.prevHandPosition = none ∧
    (∀ (rt : ℚ → ℚ) (s : GCState),
      (processFrame rt s Frame.noHand).1.prevHandPosition = none) ∧
    (∀ (rt : ℚ → ℚ) (s : GCState) (lm wlm : Fin 21 → Vec3),
      s.prevHandPosition = none →
      (processFrame rt s (Frame.hand lm wlm)).2.movement =
        some { x := 0, y := 0 }) := by
  refine ⟨rfl, fun _ _ => rfl, ?_⟩
  intro rt s lm wlm h
  simp only [processFrame, analyzeLandmarks, h]

/-- Witness for C4 on the very first hand-present frame after construction. -/
theorem movement_zero_after_hand_loss_witness :
    initGCState.prevHandPosition = none ∧
    (processFrame id initGCState
        (Frame.hand (fun _ => { x := 0, y := 0, z := 0 })
          (fun _ => { x := 0, y := 0, z := 0 }))).2.movement =
      some { x := 0, y := 0 } :=
  ⟨rfl, movement_zero_after_hand_loss.2.2 id initGCState _ _ rfl⟩

/-- C8: a no-hand frame leaves the whole stored state unchanged except for
clearing the previous-position baseline (in particular the smoothed openness
and position persist), and the emitted payload is exactly gesture "none" with
present false and every other field absent. -/
theorem noHand_frame_effect (rt : ℚ → ℚ) (s : GCState) :
    processFrame rt s Frame.noHand =
      ({ s with prevHandPosition := none },
        { gesture := "none"
          present := false
          openness := none
          fingerStates := none
          position := none
          movement := none
          pointer := none }) := rfl

/-- C10: the smoothed signal starts at openness 0 and position x = 0, y = 0,
neither stop nor start resets it, and a hand-present frame processed from
that initial smoothed state emits openness 0.28 times the raw openness and
position 0.28 times the raw mirrored wrist position. -/
theorem initial_smoothing_bias :
    initGCState.smoothed = { openness := 0, position := { x := 0, y := 0 } } ∧
    (∀ s : GCState,
      (stopGC s).smoothed = s.smoothed ∧ (startGC s).smoothed = s.smoothed) ∧
    (∀ (rt : ℚ → ℚ) (s : GCState) (lm wlm : Fin 21 → Vec3),
      s.smoothed = { openness := 0, position := { x := 0, y := 0 } } →
      s.smoothingFactor = 0.28 →
      (processFrame rt s (Frame.hand lm wlm)).2.openness =
        some (0.28 * computeOpenness rt wlm) ∧
      (processFrame rt s (Frame.hand lm wlm)).2.position =
        some { x := 0.28 * (1 - (lm 0).x), y := 0.28 * (lm 0).y }) := by
  refine ⟨rfl, ?_, ?_⟩
  · intro s
    refine ⟨rfl, ?_⟩
    unfold startGC
    split <;> rfl
  · intro rt s lm wlm hsm hf
    simp only [processFrame, analyzeLandmarks, hsm, hf, lerp]
    constructor
    · have : 0 + (computeOpenness rt wlm - 0) * 0.28 =
          0.28 * computeOpenness rt wlm := by ring
      rw [this]
    · have hx : 0 + (1 - (lm 0).x - 0) * 0.28 = 0.28 * (1 - (lm 0).x) := by ring
      have hy : 0 + ((lm 0).y - 0) * 0.28 = 0.28 * (lm 0).y := by ring
      rw [hx, hy]

/-- Witness for C10 at the freshly constructed state on zero landmarks. -/
theorem initial_smoothing_bias_witness :
    initGCState.smoothed = { openness := 0, position := { x := 0, y := 0 } } ∧
    initGCState.smoothingFactor = 0.28 ∧
    (processFrame id initGCState
        (Frame.hand (fun _ => { x := 0, y := 0, z := 0 })
          (fun _ => { x := 0, y := 0, z := 0 }))).2.openness =
      some (0.28 * computeOpenness id (fun _ => { x := 0, y := 0, z := 0 })) :=
  ⟨rfl, rfl,
    (initial_smoothing_bias.2.2 id initGCState _ _ rfl rfl).1⟩

/-- The visual state of one pickable mesh: its material's emissive color (as
a hex number) and intensity, its scale, the base values saved in userData at
construction, and the isHighlighted marker. -/
structure SceneObject where
  emissive : ℕ
  emissiveIntensity : ℚ
  scale : Vec3
  baseEmissive : ℕ
  baseEmissiveIntensity : ℚ
  baseScale : Vec3
  isHighlighted : Bool
deriving DecidableEq, Repr

/-- The highlight-relevant state of a Starfield over an index type of
pickable objects. -/
structure SFState (ι : Type) where
  objs : ι → SceneObject
  highlighted : Option ι

/-- Starfield.clearHighlight: restore the highlighted object's emissive
color, emissive intensity and scale from its saved base values, drop its
isHighlighted marker and forget the highlighted reference. -/
def clearHighlight {ι : Type} [DecidableEq ι] (s : SFState ι) : SFState ι :=
  match s.highlighted with
  | none => s
  | some h =>
    let o := s.objs h
    let restored : SceneObject :=
      { o with
          emissive := o.baseEmissive
          emissiveIntensity := o.baseEmissiveIntensity
          scale := o.baseScale
          isHighlighted := false }
    { objs := Function.update s.objs h restored, highlighted := none }

/-- Starfield.highlight: a null argument clears; otherwise the previous
highlight is cleared first when it is a different object, then the argument
gets emissive intensity 1.6, emissive color 0xf0f6ff, its scale multiplied
by 1.3 and the isHighlighted marker, and becomes the highlighted object. -/
def highlight {ι : Type} [DecidableEq ι] (s : SFState ι) : Option ι → SFState ι
  | none => clearHighlight s
  | some obj =>
    let s1 :=
      match s.highlighted with
      | some h => if h = obj then s else clearHighlight s
      | none => s
    let o := s1.objs obj
    let boosted : SceneObject :=
      { o with
          emissiveIntensity := 1.6
          emissive := 0xf0f6ff
          scale := { x := o.scale.x * 1.3, y := o.scale.y * 1.3, z := o.scale.z * 1.3 }
          isHighlighted := true }
    { objs := Function.update s1.objs obj boosted, highlighted := some obj }

/-- An initial pickable object as built by _buildStars/_buildPlanets: current
visual state equal to the saved base state and no marker. -/
def initialObject (emissive : ℕ) (intensity : ℚ) (scale : Vec3) : SceneObject :=
  { emissive := emissive
    emissiveIntensity := intensity
    scale := scale
    baseEmissive := emissive
    baseEmissiveIntensity := intensity
    baseScale := scale
    isHighlighted := false }

/-- A one-object starfield used for concrete highlight computations. -/
def oneObjSF : SFState Unit :=
  { objs := fun _ => initialObject 0 1 { x := 1, y := 1, z := 1 }
    highlighted := none }

/-- C2 counterexample: highlighting the already-highlighted object is NOT
idempotent; on a fresh object of base scale 1 the first call scales to 1.3
and the second call scales again to 1.69. -/
theorem highlight_same_not_idempotent :
    ((highlight (highlight oneObjSF (some ())) (some ())).objs ()).scale ≠
      ((highlight oneObjSF (some ())).objs ()).scale := by
  have h1 : ((highlight oneObjSF (some ())).objs ()).scale =
      { x := 1 * 1.3, y := 1 * 1.3, z := 1 * 1.3 } := rfl
  have h2 : ((highlight (highlight oneObjSF (some ())) (some ())).objs ()).scale =
      { x := 1 * 1.3 * 1.3, y := 1 * 1.3 * 1.3, z := 1 * 1.3 * 1.3 } := rfl
  rw [h1, h2]
  intro h
  have hx := congrArg Vec3.x h
  norm_num at hx

/-- C2 amended: calling highlight again on the already-highlighted object
leaves the emissive color, the emissive intensity and the marker at their
values after the first call, but multiplies each scale component by a
further 1.3 (the scale multiplier IS applied a second time). -/
theorem highlight_same_repeat {ι : Type} [DecidableEq ι]
    (s : SFState ι) (o : ι) :
    ((highlight (highlight s (some o)) (some o)).objs o).emissive =
      ((highlight s (some o)).objs o).emissive ∧
    ((highlight (highlight s (some o)) (some o)).objs o).emissiveIntensity =
      ((highlight s (some o)).objs o).emissiveIntensity ∧
    ((highlight (highlight s (some o)) (some o)).objs o).isHighlighted =
      ((highlight s (some o)).objs o).isHighlighted ∧
    ((highlight (highlight s (some o)) (some o)).objs o).scale =
      { x := ((highlight s (some o)).objs o).scale.x * 1.3
        y := ((highlight s (some o)).objs o).scale.y * 1.3
        z := ((highlight s (some o)).objs o).scale.z * 1.3 } := by
  have hhl : (highlight s (some o)).highlighted = some o := rfl
  have hstep : highlight (highlight s (some o)) (some o) =
      { objs := Function.update (highlight s (some o)).objs o
          { (highlight s (some o)).objs o with
              emissiveIntensity := 1.6
              emissive := 0xf0f6ff
              scale := { x := ((highlight s (some o)).objs o).scale.x * 1.3
                         y := ((highlight s (some o)).objs o).scale.y * 1.3
                         z := ((highlight s (some o)).objs o).scale.z * 1.3 }
              isHighlighted := true }
        highlighted := some o } := by
    show (let s1 := if o = o then highlight s (some o)
            else clearHighlight (highlight s (some o));
          let ob := s1.objs o
          let boosted : SceneObject :=
            { ob with
                emissiveIntensity := 1.6
                emissive := 0xf0f6ff
                scale := { x := ob.scale.x * 1.3, y := ob.scale.y * 1.3,
                           z := ob.scale.z * 1.3 }
                isHighlighted := true }
          ({ objs := Function.update s1.objs o boosted,
             highlighted := some o } : SFState ι)) = _
    rw [if_pos rfl]
  have hob : ((highlight s (some o)).objs o).emissive = 0xf0f6ff ∧
      ((highlight s (some o)).objs o).emissiveIntensity = 1.6 ∧
      ((highlight s (some o)).objs o).isHighlighted = true := by
    refine ⟨?_, ?_, ?_⟩ <;>
      simp [highlight, Function.update_same]
  rw [hstep]
  simp only [Function.update_same]
  exact ⟨hob.1.symm, hob.2.1.symm, hob.2.2.symm, trivial⟩

/-- The record built by the tail of Starfield.highlight: boost the target's
emissive values, multiply its scale by 1.3, set the marker and remember it. -/
def applyBoost {ι : Type} [DecidableEq ι] (s : SFState ι) (obj : ι) : SFState ι :=
  { objs := Function.update s.objs obj
      { s.objs obj with
          emissiveIntensity := 1.6
          emissive := 0xf0f6ff
          scale := { x := (s.objs obj).scale.x * 1.3
                     y := (s.objs obj).scale.y * 1.3
                     z := (s.objs obj).scale.z * 1.3 }
          isHighlighted := true }
    highlighted := some obj }

lemma highlight_some_eq {ι : Type} [DecidableEq ι] (s : SFState ι) (obj : ι) :
    highlight s (some obj) =
      applyBoost
        (match s.highlighted with
          | some h => if h = obj then s else clearHighlight s
          | none => s) obj := rfl

lemma clearHighlight_of_none {ι : Type} [DecidableEq ι] {s : SFState ι}
    (h : s.highlighted = none) : clearHighlight s = s := by
  unfold clearHighlight
  rw [h]

lemma clearHighlight_of_some {ι : Type} [DecidableEq ι] {s : SFState ι} {a : ι}
    (h : s.highlighted = some a) :
    clearHighlight s =
      { objs := Function.update s.objs a
          { s.objs a with
              emissive := (s.objs a).baseEmissive
              emissiveIntensity := (s.objs a).baseEmissiveIntensity
              scale := (s.objs a).baseScale
              isHighlighted := false }
        highlighted := none } := by
  unfold clearHighlight
  rw [h]

lemma highlight_of_hl_none {ι : Type} [DecidableEq ι] {s : SFState ι}
    (h : s.highlighted = none) (obj : ι) :
    highlight s (some obj) = applyBoost s obj := by
  rw [highlight_some_eq, h]

lemma highlight_of_hl_same {ι : Type} [DecidableEq ι] {s : SFState ι} {obj : ι}
    (h : s.highlighted = some obj) :
    highlight s (some obj) = applyBoost s obj := by
  rw [highlight_some_eq, h]
  show applyBoost (if obj = obj then s else clearHighlight s) obj = applyBoost s obj
  rw [if_pos rfl]

lemma highlight_of_hl_other {ι : Type} [DecidableEq ι] {s : SFState ι} {a obj : ι}
    (h : s.highlighted = some a) (hne : a ≠ obj) :
    highlight s (some obj) = applyBoost (clearHighlight s) obj := by
  rw [highlight_some_eq, h]
  show applyBoost (if a = obj then s else clearHighlight s) obj =
    applyBoost (clearHighlight s) obj
  rw [if_neg hne]

lemma applyBoost_objs_ne {ι : Type} [DecidableEq ι] (s : SFState ι) {obj i : ι}
    (hio : i ≠ obj) : (applyBoost s obj).objs i = s.objs i := by
  simp only [applyBoost]
  exact Function.update_noteq hio _ _

/-- Invariant: only the remembered highlighted object can carry the marker. -/
def highlightInv {ι : Type} (s : SFState ι) : Prop :=
  ∀ i, (s.objs i).isHighlighted = true → s.highlighted = some i

/-- At most one object carries the isHighlighted marker. -/
def atMostOneHighlighted {ι : Type} (s : SFState ι) : Prop :=
  ∀ i j, (s.objs i).isHighlighted = true → (s.objs j).isHighlighted = true → i = j

lemma clearHighlight_marker {ι : Type} [DecidableEq ι] {s : SFState ι}
    (h : highlightInv s) (i : ι) :
    ((clearHighlight s).objs i).isHighlighted = false := by
  cases hh : s.highlighted with
  | none =>
    rw [clearHighlight_of_none hh]
    cases hb : (s.objs i).isHighlighted with
    | false => rfl
    | true =>
      exfalso
      have hx := h i hb
      rw [hh] at hx
      exact Option.noConfusion hx
  | some a =>
    rw [clearHighlight_of_some hh]
    by_cases hia : i = a
    · subst hia
      show (Function.update s.objs i _ i).isHighlighted = false
      rw [Function.update_same]
    · show (Function.update s.objs a _ i).isHighlighted = false
      rw [Function.update_noteq hia]
      cases hb : (s.objs i).isHighlighted with
      | false => rfl
      | true =>
        exfalso
        have hx := h i hb
        rw [hh] at hx
        exact hia (Option.some.inj hx).symm

lemma highlightInv_clear {ι : Type} [DecidableEq ι] {s : SFState ι}
    (h : highlightInv s) : highlightInv (clearHighlight s) := by
  intro i hi
  rw [clearHighlight_marker h i] at hi
  exact Bool.noConfusion hi

lemma highlightInv_highlight {ι : Type} [DecidableEq ι] {s : SFState ι}
    (h : highlightInv s) (o : Option ι) : highlightInv (highlight s o) := by
  cases o with
  | none => exact highlightInv_clear h
  | some obj =>
    intro i hi
    have hl : (highlight s (some obj)).highlighted = some obj := rfl
    rw [hl]
    by_cases hio : i = obj
    · rw [hio]
    · exfalso
      have hmk : ((highlight s (some obj)).objs i).isHighlighted = false := by
        cases hh : s.highlighted with
        | none =>
          rw [highlight_of_hl_none hh, applyBoost_objs_ne _ hio]
          cases hb : (s.objs i).isHighlighted with
          | false => rfl
          | true =>
            exfalso
            have hx := h i hb
            rw [hh] at hx
            exact Option.noConfusion hx
        | some a =>
          by_cases hao : a = obj
          · subst hao
            rw [highlight_of_hl_same hh, applyBoost_objs_ne _ hio]
            cases hb : (s.objs i).isHighlighted with
            | false => rfl
            | true =>
              exfalso
              have hx := h i hb
              rw [hh] at hx
              exact hio (Option.some.inj hx).symm
          · rw [highlight_of_hl_other hh hao, applyBoost_objs_ne _ hio]
            exact clearHighlight_marker h i
      rw [hmk] at hi
      exact Bool.noConfusion hi

/-- A highlight or clearHighlight call. -/
inductive SFOp (ι : Type) where
  | highlightOp : Option ι → SFOp ι
  | clearOp : SFOp ι

/-- Run one call against the starfield state. -/
def runOp {ι : Type} [DecidableEq ι] (s : SFState ι) : SFOp ι → SFState ι
  | SFOp.highlightOp o => highlight s o
  | SFOp.clearOp => clearHighlight s

/-- Run a finite sequence of calls. -/
def runOps {ι : Type} [DecidableEq ι] (s : SFState ι) : List (SFOp ι) → SFState ι
  | [] => s
  | op :: ops => runOps (runOp s op) ops

lemma highlightInv_runOp {ι : Type} [DecidableEq ι] {s : SFState ι}
    (h : highlightInv s) (op : SFOp ι) : highlightInv (runOp s op) := by
  cases op with
  | highlightOp o => exact highlightInv_highlight h o
  | clearOp => exact highlightInv_clear h

lemma highlightInv_runOps {ι : Type} [DecidableEq ι] {s : SFState ι}
    (h : highlightInv s) (ops : List (SFOp ι)) : highlightInv (runOps s ops) := by
  induction ops generalizing s with
  | nil => exact h
  | cons op ops ih => exact ih (highlightInv_runOp h op)

lemma atMostOne_of_inv {ι : Type} {s : SFState ι} (h : highlightInv s) :
    atMostOneHighlighted s := fun i j hi hj =>
  Option.some.inj ((h i hi).symm.trans (h j hj))

/-- C6: starting from any state satisfying the marker invariant (as a freshly
constructed Starfield does: no marker, nothing highlighted), every finite
sequence of highlight and clearHighlight calls leaves at most one object
carrying the isHighlighted marker; and highlighting an object different from
the currently highlighted one restores the previous object's emissive color,
emissive intensity, scale and marker to its saved base values. -/
theorem highlight_at_most_one {ι : Type} [DecidableEq ι] :
    (∀ g : ι → SceneObject, (∀ i, (g i).isHighlighted = false) →
      highlightInv { objs := g, highlighted := none }) ∧
    (∀ s : SFState ι, highlightInv s → ∀ ops : List (SFOp ι),
      highlightInv (runOps s ops) ∧ atMostOneHighlighted (runOps s ops)) ∧
    (∀ (s : SFState ι) (p o : ι), s.highlighted = some p → p ≠ o →
      (highlight s (some o)).objs p =
        { s.objs p with
            emissive := (s.objs p).baseEmissive
            emissiveIntensity := (s.objs p).baseEmissiveIntensity
            scale := (s.objs p).baseScale
            isHighlighted := false }) := by
  refine ⟨?_, ?_, ?_⟩
  · intro g hg i hi
    rw [hg i] at hi
    exact Bool.noConfusion hi
  · intro s h ops
    exact ⟨highlightInv_runOps h ops, atMostOne_of_inv (highlightInv_runOps h ops)⟩
  · intro s p o hp hne
    rw [highlight_of_hl_other hp hne, applyBoost_objs_ne _ hne]
    rw [clearHighlight_of_some hp]
    show Function.update s.objs p _ p = _
    rw [Function.update_same]

/-- A two-object starfield used to witness the highlight invariant. -/
def twoObjSF : SFState (Fin 2) :=
  { objs := fun _ => initialObject 0 1 { x := 1, y := 1, z := 1 }
    highlighted := none }

/-- Witness for C6: two highlight calls on different objects of a fresh
two-object starfield keep the invariant, and the switch restores object 0. -/
theorem highlight_at_most_one_witness :
    (∀ i, ((fun _ : Fin 2 => initialObject 0 1 { x := 1, y := 1, z := 1 }) i).isHighlighted = false) ∧
    highlightInv twoObjSF ∧
    atMostOneHighlighted
      (runOps twoObjSF [SFOp.highlightOp (some 0), SFOp.highlightOp (some 1)]) ∧
    ((highlight twoObjSF (some 0)).highlighted = some 0 ∧ (0 : Fin 2) ≠ 1) ∧
    (highlight (highlight twoObjSF (some 0)) (some 1)).objs 0 =
      { (highlight twoObjSF (some 0)).objs 0 with
          emissive := ((highlight twoObjSF (some 0)).objs 0).baseEmissive
          emissiveIntensity :=
            ((highlight twoObjSF (some 0)).objs 0).baseEmissiveIntensity
          scale := ((highlight twoObjSF (some 0)).objs 0).baseScale
          isHighlighted := false } := by
  have hg : ∀ i, ((fun _ : Fin 2 => initialObject 0 1 { x := 1, y := 1, z := 1 }) i).isHighlighted = false :=
    fun _ => rfl
  have hinv : highlightInv twoObjSF := (highlight_at_most_one (ι := Fin 2)).1 _ hg
  refine ⟨hg, hinv, ((highlight_at_most_one (ι := Fin 2)).2.1 twoObjSF hinv _).2, ⟨rfl, by decide⟩, ?_⟩
  exact (highlight_at_most_one (ι := Fin 2)).2.2 (highlight twoObjSF (some 0)) 0 1 rfl (by decide)

/-- GestureController.on: the per-event JavaScript Set of handlers is an
insertion-ordered duplicate-free list of handler identifiers; adding an
already-present handler leaves the set unchanged, otherwise appends. -/
def onReg (L : String → List ℕ) (e : String) (h : ℕ) : String → List ℕ :=
  fun ev => if ev = e then (if h ∈ L e then L e else L e ++ [h]) else L ev

/-- GestureController.off: Set.delete removes the handler from the event's
handler set. -/
def offReg (L : String → List ℕ) (e : String) (h : ℕ) : String → List ℕ :=
  fun ev => if ev = e then (L e).erase h else L ev

/-- The off calls a handler performs during its own invocation, applied in
order. -/
def runOffs (L : String → List ℕ) : List (String × ℕ) → (String → List ℕ)
  | [] => L
  | r :: rs => runOffs (offReg L r.1 r.2) rs

/-- GestureController._emit's forEach over the handler set: walk the entry
list captured at emission start; a handler is invoked (logged, its off calls
applied) only if it is still registered when reached, matching JavaScript
Set.prototype.forEach, which skips entries deleted before being visited. -/
def emitAux {α : Type} (β : ℕ → α → List (String × ℕ)) (e : String) (payload : α) :
    (String → List ℕ) → List ℕ → List (ℕ × α) → ((String → List ℕ) × List (ℕ × α))
  | L, [], log => (L, log)
  | L, h :: rest, log =>
    if h ∈ L e then
      emitAux β e payload (runOffs L (β h payload)) rest (log ++ [(h, payload)])
    else
      emitAux β e payload L rest log

/-- GestureController._emit: deliver the payload to the handlers registered
for the event, returning the final registration state and the invocation log. -/
def emit {α : Type} (β : ℕ → α → List (String × ℕ)) (e : String) (payload : α)
    (L : String → List ℕ) : (String → List ℕ) × List (ℕ × α) :=
  emitAux β e payload L (L e) []

lemma emitAux_cons {α : Type} (β : ℕ → α → List (String × ℕ)) (e : String)
    (payload : α) (L : String → List ℕ) (h : ℕ) (rest : List ℕ)
    (log : List (ℕ × α)) :
    emitAux β e payload L (h :: rest) log =
      if h ∈ L e then
        emitAux β e payload (runOffs L (β h payload)) rest (log ++ [(h, payload)])
      else
        emitAux β e payload L rest log := rfl

lemma runOffs_mem (e : String) (x : ℕ) :
    ∀ (rs : List (String × ℕ)) (L : String → List ℕ),
      x ∈ L e → (∀ r ∈ rs, r.1 = e → r.2 ≠ x) → x ∈ runOffs L rs e := by
  intro rs
  induction rs with
  | nil => intro L hx _; exact hx
  | cons r rs ih =>
    intro L hx hr
    apply ih
    · show x ∈ (if e = r.1 then (L r.1).erase r.2 else L e)
      by_cases he : e = r.1
      · rw [if_pos he]
        have hne : r.2 ≠ x := hr r (List.mem_cons_self r rs) he.symm
        rw [List.mem_erase_of_ne (Ne.symm hne), ← he]
        exact hx
      · rw [if_neg he]
        exact hx
    · intro q hq hqe
      exact hr q (List.mem_cons_of_mem r hq) hqe

lemma emitAux_log {α : Type} (β : ℕ → α → List (String × ℕ)) (e : String)
    (payload : α) :
    ∀ (pending : List ℕ) (L : String → List ℕ) (log : List (ℕ × α)),
      pending.Nodup →
      (∀ h ∈ pending, h ∈ L e) →
      (∀ h ∈ pending, ∀ r ∈ β h payload, r.1 = e → r.2 = h) →
      (emitAux β e payload L pending log).2 =
        log ++ pending.map (fun h => (h, payload)) := by
  intro pending
  induction pending with
  | nil => intro L log _ _ _; simp [emitAux]
  | cons h rest ih =>
    intro L log hnd hmem hself
    have hh : h ∈ L e := hmem h (List.mem_cons_self h rest)
    rw [emitAux_cons, if_pos hh]
    rw [ih (runOffs L (β h payload)) (log ++ [(h, payload)])
      (List.Nodup.of_cons hnd) ?memrest ?selfrest]
    · simp
    case memrest =>
      intro x hx
      have hxh : x ≠ h := fun hq => (List.nodup_cons.mp hnd).1 (hq ▸ hx)
      apply runOffs_mem e x (β h payload) L (hmem x (List.mem_cons_of_mem h hx))
      intro r hr hre
      have hr2 : r.2 = h := hself h (List.mem_cons_self h rest) r hr hre
      rw [hr2]
      exact Ne.symm hxh
    case selfrest =>
      intro x hx
      exact hself x (List.mem_cons_of_mem h hx)

/-- C9: when every handler registered for the event at most unregisters
itself on that event during its own invocation, _emit invokes each registered
handler exactly once with the emitted payload, in registration order; and on
collapses duplicate registrations while appending new handlers at the end. -/
theorem emit_spec {α : Type} (β : ℕ → α → List (String × ℕ)) (e : String)
    (payload : α) (L : String → List ℕ)
    (hnd : (L e).Nodup)
    (hself : ∀ h ∈ L e, ∀ r ∈ β h payload, r.1 = e → r.2 = h) :
    (emit β e payload L).2 = (L e).map (fun h => (h, payload)) ∧
    (∀ h, h ∈ L e → onReg L e h = L) ∧
    (∀ h, h ∉ L e → onReg L e h e = L e ++ [h]) := by
  refine ⟨?_, ?_, ?_⟩
  · have hrun := emitAux_log β e payload (L e) L [] hnd (fun x hx => hx) hself
    simpa [emit] using hrun
  · intro h hh
    funext ev
    show (if ev = e then (if h ∈ L e then L e else L e ++ [h]) else L ev) = L ev
    by_cases he : ev = e
    · rw [if_pos he, if_pos hh, he]
    · rw [if_neg he]
  · intro h hh
    show (if e = e then (if h ∈ L e then L e else L e ++ [h]) else L e) = L e ++ [h]
    rw [if_pos rfl, if_neg hh]

/-- Witness for C9: handlers 1 and 2 on "update", handler 1 removes itself
during its invocation, payload 7; both handlers run, in order. -/
theorem emit_spec_witness :
    ((fun ev => if ev = "update" then [1, 2] else ([] : List ℕ)) "update").Nodup ∧
    (∀ h ∈ (fun ev => if ev = "update" then [1, 2] else ([] : List ℕ)) "update",
      ∀ r ∈ (fun hid (_ : ℕ) =>
          if hid = 1 then [("update", 1)] else []) h (7 : ℕ),
        r.1 = "update" → r.2 = h) ∧
    (emit (fun hid (_ : ℕ) => if hid = 1 then [("update", 1)] else [])
      "update" 7 (fun ev => if ev = "update" then [1, 2] else [])).2 =
      [(1, 7), (2, 7)] := by
  refine ⟨by decide, by decide, ?_⟩
  have h := (emit_spec (fun hid (_ : ℕ) => if hid = 1 then [("update", 1)] else [])
    "update" 7 (fun ev => if ev = "update" then [1, 2] else [])
    (by decide) (by decide)).1
  rw [h]
  decide
